import Mathlib

/-!
Verification development for the treadmill telemetry / scenario
application.  JavaScript numbers are modelled as exact rationals (ℚ),
absent or undefined values as Option, and ambient effects (the
Math.random draw, Date.now, the WebSocket ready state, timers) as
explicit parameters or explicit event steps on a state record.
-/

/-- JavaScript Math.round over exact rationals: nearest integer with
ties rounded toward positive infinity, that is ⌊x + 1/2⌋. -/
def jsRound (q : ℚ) : ℤ := ⌊q + 1/2⌋

/-- JavaScript Math.max on two (non-NaN) numbers. -/
def jsMax (a b : ℚ) : ℚ := if a ≤ b then b else a

/-- JavaScript Math.min on two (non-NaN) numbers. -/
def jsMin (a b : ℚ) : ℚ := if a ≤ b then a else b

/-- Model of getNextValue in src/services/randomWalk.ts.  The
Math.random() draw is passed in explicitly as rand (in production it
lies in [0,1)); every other step follows the source line by line:
sequential defensive clamp of current (the second if wins when both
fire), mean reversion with fixed strength 0.2, symmetric noise, hard
clamp Math.max(min, Math.min(max, next)), then rounding to precision
decimal digits with Math.round. -/
def getNextValue (current min max volatility : ℚ) (precision : ℕ) (rand : ℚ) : ℚ :=
  let base := if current > max then max else if current < min then min else current
  let center := (min + max) / 2
  let reversionStrength : ℚ := 0.2
  let drift := (center - base) * reversionStrength
  let noise := (rand * 2 - 1) * volatility
  let next := base + drift + noise
  let clamped := jsMax min (jsMin max next)
  let factor : ℚ := 10 ^ precision
  (jsRound (clamped * factor) : ℚ) / factor

/-- Value computed by getNextValue just before its final rounding step
(steps 1 through 5 of the source: clamp, drift, noise, hard clamp). -/
def preRoundValue (current min max volatility rand : ℚ) : ℚ :=
  let base := if current > max then max else if current < min then min else current
  let center := (min + max) / 2
  let reversionStrength : ℚ := 0.2
  let drift := (center - base) * reversionStrength
  let noise := (rand * 2 - 1) * volatility
  let next := base + drift + noise
  jsMax min (jsMin max next)

/-- Final rounding step of getNextValue (randomWalk.ts lines 49-51):
Math.round(next * 10^precision) / 10^precision. -/
def roundToPrecision (x : ℚ) (p : ℕ) : ℚ :=
  (jsRound (x * 10 ^ p) : ℚ) / 10 ^ p

/-- Stated from the spec wording, for comparison with the code:
round-half-away-from-zero at 10^p resolution, that is
sgn(x) * roundHalfUp(|x| * 10^p) / 10^p. -/
def specRoundHalfAwayFromZero (x : ℚ) (p : ℕ) : ℚ :=
  if x < 0 then -((⌊|x| * 10 ^ p + 1/2⌋ : ℚ) / 10 ^ p)
  else (⌊|x| * 10 ^ p + 1/2⌋ : ℚ) / 10 ^ p

/-- Loosely typed JSON-ish value carried by an inbound frame field:
a number, a string, or anything else (object, boolean, ...). -/
inductive JVal where
  | num (q : ℚ)
  | str (s : String)
  | other
deriving DecidableEq

/-- Decimal digit list folded into a natural number. -/
def digitsToNat (l : List Char) : ℕ :=
  l.foldl (fun a c => a * 10 + (c.toNat - 48)) 0

/-- Test whether a character list starts with the given character. -/
def startsWithChar (cs : List Char) (c : Char) : Bool :=
  match cs with
  | [] => false
  | a :: _ => a == c

/-- Model of the JavaScript parseFloat builtin restricted to plain
decimal literals: optional sign, integer digits, an optional dot with
fractional digits; trailing non-numeric characters are ignored (prefix
parsing, as parseFloat does); no digits at all yields NaN, modelled as
none.  The repository only feeds it such inputs. -/
def jsParseFloat (s : String) : Option ℚ :=
  let cs := s.toList
  let sign : ℚ := if startsWithChar cs '-' then -1 else 1
  let rest := if startsWithChar cs '-' || startsWithChar cs '+' then cs.tail else cs
  let intPart := rest.takeWhile Char.isDigit
  let rest2 := rest.dropWhile Char.isDigit
  let fracPart := if startsWithChar rest2 '.' then rest2.tail.takeWhile Char.isDigit else []
  if intPart.isEmpty && fracPart.isEmpty then none
  else some (sign * ((digitsToNat intPart : ℚ)
    + (digitsToNat fracPart : ℚ) / 10 ^ fracPart.length))

/-- Model of parseNumber in part_001 lines 25-32: numeric pass-through,
strings via parseFloat (NaN rejected), anything else undefined. -/
def parseNumber : Option JVal → Option ℚ
  | some (JVal.num q) => some q
  | some (JVal.str s) => jsParseFloat s
  | _ => none

/-- Candidate fields of the nested msg.data container (step 1 of the
normalizer). -/
structure NestedData where
  speed_kmh : Option JVal
  speed : Option JVal
  kph : Option JVal
  incline_pct : Option JVal
  incline : Option JVal
  grade : Option JVal
deriving DecidableEq

/-- Nested container with every candidate field absent. -/
def emptyNested : NestedData := ⟨none, none, none, none, none, none⟩

/-- Shape-relevant fields of an inbound JSON frame: the nested data
container, the flat top-level candidate keys, and the typed
single-value shape (type plus value).  A field holds none when absent,
undefined or null. -/
structure Msg where
  data : Option NestedData
  speed : Option JVal
  speedKmh : Option JVal
  kph : Option JVal
  spd : Option JVal
  incline : Option JVal
  inclinePct : Option JVal
  grade : Option JVal
  inc : Option JVal
  type : Option String
  value : Option JVal
deriving DecidableEq

/-- Frame with every recognized field absent. -/
def emptyMsg : Msg :=
  ⟨none, none, none, none, none, none, none, none, none, none, none⟩

/-- JavaScript nullish coalescing on optional values: a ?? b. -/
def jsOr (a b : Option JVal) : Option JVal :=
  match a with
  | some v => some v
  | none => b

/-- Typed-message discriminator for speed frames. -/
def msgTypeSpeed : String := "SPEED"

/-- Typed-message discriminator for speed-setting frames. -/
def msgTypeSetSpeed : String := "SET_SPEED"

/-- Typed-message discriminator for incline frames. -/
def msgTypeIncline : String := "INCLINE"

/-- Typed-message discriminator for incline-setting frames. -/
def msgTypeSetIncline : String := "SET_INCLINE"

/-- Result of the normalizer: optional speed and incline updates. -/
structure NormalizedUpdate where
  speed : Option ℚ
  incline : Option ℚ
deriving DecidableEq

/-- Raw speed extraction of ws.onmessage (part_001 lines 157-172):
step 1 reads the nested data container, step 2 falls back to the flat
keys only when step 1 produced undefined, and step 3 unconditionally
overwrites with msg.value whenever the type matches SPEED/SET_SPEED. -/
def extractRawSpeed (m : Msg) : Option JVal :=
  let nested :=
    match m.data with
    | some d => jsOr d.speed_kmh (jsOr d.speed d.kph)
    | none => none
  let flat :=
    match nested with
    | none => jsOr m.speed (jsOr m.speedKmh (jsOr m.kph m.spd))
    | some v => some v
  if m.type = some msgTypeSpeed ∨ m.type = some msgTypeSetSpeed then m.value else flat

/-- Raw incline extraction of ws.onmessage (part_001 lines 157-173),
symmetric to the speed extraction. -/
def extractRawIncline (m : Msg) : Option JVal :=
  let nested :=
    match m.data with
    | some d => jsOr d.incline_pct (jsOr d.incline d.grade)
    | none => none
  let flat :=
    match nested with
    | none => jsOr m.incline (jsOr m.inclinePct (jsOr m.grade m.inc))
    | some v => some v
  if m.type = some msgTypeIncline ∨ m.type = some msgTypeSetIncline then m.value else flat

/-- Full normalizer: raw extraction followed by safe number parsing
(part_001 lines 176-177). -/
def extractUpdate (m : Msg) : NormalizedUpdate :=
  { speed := parseNumber (extractRawSpeed m)
    incline := parseNumber (extractRawIncline m) }

/-- Telemetry state held in treadmillRef (part_001 lines 44-49). -/
structure TreadmillState where
  speedKmh : ℚ
  inclinePct : ℚ
  timestamp : ℕ
  isConnected : Bool
deriving DecidableEq

/-- Initial telemetry state: zero speed and incline, not connected;
the construction timestamp is passed in for Date.now(). -/
def initialTreadmillState (t0 : ℕ) : TreadmillState :=
  { speedKmh := 0, inclinePct := 0, timestamp := t0, isConnected := false }

/-- State update performed by ws.onmessage (part_001 lines 180-192):
if the normalizer produced any field, overwrite the state, keeping the
previous value for a missing field, stamping the current time and
marking the link connected; otherwise leave the state untouched. -/
def onMessageUpdate (st : TreadmillState) (now : ℕ) (m : Msg) : TreadmillState :=
  let u := extractUpdate m
  if u.speed ≠ none ∨ u.incline ≠ none then
    { speedKmh := u.speed.getD st.speedKmh
      inclinePct := u.incline.getD st.inclinePct
      timestamp := now
      isConnected := true }
  else st

/-- Sequential processing of a list of (arrival time, frame) pairs. -/
def processFrames (st : TreadmillState) (frames : List (ℕ × Msg)) : TreadmillState :=
  frames.foldl (fun s f => onMessageUpdate s f.1 f.2) st

/-- WebSocket readyState constant (part_001 line 11). -/
def WS_STATE_CONNECTING : ℕ := 0

/-- WebSocket readyState constant (part_001 line 12). -/
def WS_STATE_OPEN : ℕ := 1

/-- WebSocket readyState constant (part_001 line 13). -/
def WS_STATE_CLOSING : ℕ := 2

/-- WebSocket readyState constant (part_001 line 14). -/
def WS_STATE_CLOSED : ℕ := 3

/-- Transport handle as observed by sendCommand: its url and its
current readyState. -/
structure WSocket where
  url : String
  readyState : ℕ
deriving DecidableEq

/-- Outbound wire shape built by createProtocolMessage (part_001 lines
17-22): a type tag and an optional numeric value. -/
structure CommandMessage where
  type : String
  value : Option ℚ
deriving DecidableEq

/-- Observable effect of one sendCommand call: the frames written to
the transport and the tx log lines added.  The serialized JSON text of
a frame or log line is represented by the CommandMessage itself. -/
structure SendResult where
  transmitted : List CommandMessage
  logged : List CommandMessage
deriving DecidableEq

/-- Model of sendCommand (part_001 lines 84-96): transmit and log only
when a target socket exists and its readyState is OPEN; otherwise do
nothing at all.  JSON.stringify of a plain record cannot throw, so the
catch branch is unreachable and not modelled. -/
def sendCommand (sock : Option WSocket) (type : String) (value : Option ℚ) : SendResult :=
  match sock with
  | some ws =>
    if ws.readyState = WS_STATE_OPEN then
      { transmitted := [{ type := type, value := value }]
        logged := [{ type := type, value := value }] }
    else { transmitted := [], logged := [] }
  | none => { transmitted := [], logged := [] }

/-- Command type sent by the speed scenario loop. -/
def cmdSetSpeedNow : String := "SET_SPEED_NOW"

/-- Default WebSocket endpoint of the application. -/
def demoUrl : String := "ws://localhost:8000/ws"

/-- Fixed reconnect delay scheduled by ws.onclose (part_001 line 134),
in milliseconds. -/
def reconnectDelayMs : ℕ := 3000

/-- Event-level model of the connection management in part_001.
Sockets are identified by creation order; current is wsRef.current,
openIds the set of sockets whose readyState is OPEN, pending the
reconnect timers scheduled by ws.onclose (each capturing the socket it
was created for), connects the number of transports opened so far.
The single configured url never changes, so the url equality in the
idempotency guard is always true and is not represented. -/
structure LinkState where
  current : Option ℕ
  nextId : ℕ
  openIds : List ℕ
  pending : List ℕ
  connects : ℕ
deriving DecidableEq

/-- Model of connectWebSocket (part_001 lines 98-200, reconnection
relevant parts): a no-op when the current socket is still OPEN at the
same url; otherwise close the superseded socket, open a fresh
transport and store it in wsRef.current. -/
def connectWebSocket (s : LinkState) : LinkState :=
  match s.current with
  | some c =>
    if c ∈ s.openIds then s
    else
      { current := some s.nextId
        nextId := s.nextId + 1
        openIds := s.openIds.filter (fun j => j != c)
        pending := s.pending
        connects := s.connects + 1 }
  | none =>
    { current := some s.nextId
      nextId := s.nextId + 1
      openIds := s.openIds
      pending := s.pending
      connects := s.connects + 1 }

/-- Model of ws.onopen reaching readyState OPEN for socket i. -/
def openEvt (s : LinkState) (i : ℕ) : LinkState :=
  { s with openIds := i :: s.openIds }

/-- Model of ws.onclose for socket i (part_001 lines 126-136): the
socket is no longer OPEN; if it is still the current socket, schedule
one reconnect timer (setTimeout of reconnectDelayMs) capturing it. -/
def closeEvt (s : LinkState) (i : ℕ) : LinkState :=
  let s' := { s with openIds := s.openIds.filter (fun j => j != i) }
  if s'.current = some i then { s' with pending := s'.pending ++ [i] } else s'

/-- Model of one scheduled reconnect timer firing for socket i
(part_001 lines 130-134): the timer is consumed; connectWebSocket runs
only if wsRef.current is still that very socket. -/
def reconnectTimerFire (s : LinkState) (i : ℕ) : LinkState :=
  if i ∈ s.pending then
    let s' := { s with pending := s.pending.erase i }
    if s'.current = some i then connectWebSocket s' else s'
  else s

/-- Model of the connection-management cleanup (part_001 lines
205-212): wsRef.current is nulled before the socket is closed; pending
timers are not cleared, their guard is neutralized instead. -/
def teardown (s : LinkState) : LinkState :=
  { s with current := none }

/-- Per-dimension scenario range (types.ts): bounds, volatility and
the timer period in milliseconds. -/
structure RangeConfig where
  min : ℚ
  max : ℚ
  volatility : ℚ
  updateInterval : ℚ
deriving DecidableEq

/-- Scenario configuration (types.ts): a name plus one range per
controlled dimension. -/
structure ScenarioConfig where
  name : String
  speed : RangeConfig
  incline : RangeConfig
deriving DecidableEq

/-- Section selector of handleChange in ControlPanel. -/
inductive ConfigSection where
  | speed
  | incline
deriving DecidableEq

/-- Field selector of handleChange in ControlPanel. -/
inductive RangeFieldName where
  | min
  | max
  | volatility
  | updateInterval
deriving DecidableEq

/-- Overwrite one field of a range configuration. -/
def setRangeField (r : RangeConfig) : RangeFieldName → ℚ → RangeConfig
  | RangeFieldName.min, v => { r with min := v }
  | RangeFieldName.max, v => { r with max := v }
  | RangeFieldName.volatility, v => { r with volatility := v }
  | RangeFieldName.updateInterval, v => { r with updateInterval := v }

/-- Apply an update to the selected section of the configuration. -/
def applySection (cfg : ScenarioConfig) : ConfigSection → (RangeConfig → RangeConfig) → ScenarioConfig
  | ConfigSection.speed, f => { cfg with speed := f cfg.speed }
  | ConfigSection.incline, f => { cfg with incline := f cfg.incline }

/-- Read the selected section of the configuration. -/
def sectionOf (cfg : ScenarioConfig) : ConfigSection → RangeConfig
  | ConfigSection.speed => cfg.speed
  | ConfigSection.incline => cfg.incline

/-- Numeric core of handleChange: store the parsed number into the
selected field, with no further validation. -/
def handleChangeNum (cfg : ScenarioConfig) (sec : ConfigSection)
    (field : RangeFieldName) (numVal : ℚ) : ScenarioConfig :=
  applySection cfg sec (fun r => setRangeField r field numVal)

/-- Model of handleChange in ControlPanel (part_000 lines 256-270):
parseFloat the text, ignore the event when it is NaN, otherwise store
the number as-is. -/
def handleChange (cfg : ScenarioConfig) (sec : ConfigSection)
    (field : RangeFieldName) (value : String) : ScenarioConfig :=
  match jsParseFloat value with
  | none => cfg
  | some numVal => handleChangeNum cfg sec field numVal

/-- Model of the onChange handler of the Interval (s) inputs (part_000
lines 358-369 and 404-415): parseFloat the entered seconds, ignore NaN,
otherwise forward val * 1000 to handleChange as a string.  parseFloat
inverts toString on finite numbers, so the inner round-trip through
handleChange is the numeric core applied to val * 1000. -/
def intervalInputOnChange (cfg : ScenarioConfig) (sec : ConfigSection)
    (text : String) : ScenarioConfig :=
  match jsParseFloat text with
  | none => cfg
  | some v => handleChangeNum cfg sec RangeFieldName.updateInterval (v * 1000)

/-- Initial scenario configuration (part_001 lines 59-63). -/
def defaultScenarioConfig : ScenarioConfig :=
  { name := "Random Walk"
    speed := { min := 2.0, max := 8.0, volatility := 0.5, updateInterval := 5000 }
    incline := { min := 0, max := 10, volatility := 1.0, updateInterval := 30000 } }

/-- Text a user can enter into the Interval (s) input. -/
def inputHalfSecond : String := "0.5"

/-- Severity tag of a log entry (types.ts). -/
inductive LogKind where
  | info
  | error
  | success
  | tx
deriving DecidableEq

/-- One entry of the scrolling log (types.ts). -/
structure LogEntry where
  timestamp : ℕ
  message : String
  type : LogKind
deriving DecidableEq

/-- Model of addLog (part_001 lines 80-82): prepend the new entry and
keep only the first 200 entries. -/
def addLog (logs : List LogEntry) (now : ℕ) (message : String) (kind : LogKind) : List LogEntry :=
  ({ timestamp := now, message := message, type := kind } :: logs).take 200

/-- Frame carrying both a flat speed field and a typed SET_SPEED value
that disagree; used to settle the normalizer priority question. -/
def typedSpeedMsg : Msg :=
  { emptyMsg with
    speed := some (JVal.num 5)
    type := some msgTypeSetSpeed
    value := some (JVal.num 6) }

/-- Frame carrying a negative flat speed value. -/
def negSpeedMsg : Msg :=
  { emptyMsg with speed := some (JVal.num (-3)) }

/-- Frame carrying only a positive flat speed value. -/
def posSpeedMsg : Msg :=
  { emptyMsg with speed := some (JVal.num 5) }

/-- Transport handle observed in the CLOSED state. -/
def closedSocket : WSocket := { url := demoUrl, readyState := WS_STATE_CLOSED }

/-- Transport handle observed in the CLOSING state. -/
def closingSocket : WSocket := { url := demoUrl, readyState := WS_STATE_CLOSING }

/-- Link state with socket 0 current and open and nothing pending. -/
def demoLinkState : LinkState :=
  { current := some 0, nextId := 1, openIds := [0], pending := [], connects := 0 }

theorem jsMax_eq_max (a b : ℚ) : jsMax a b = max a b := by
  simp [jsMax, max_def]

theorem jsMin_eq_min (a b : ℚ) : jsMin a b = min a b := by
  simp [jsMin, min_def]

theorem getNextValue_eq_round_pre (current min max volatility : ℚ) (p : ℕ) (rand : ℚ) :
    getNextValue current min max volatility p rand
      = roundToPrecision (preRoundValue current min max volatility rand) p := rfl

theorem preRoundValue_mem (current min max volatility rand : ℚ) (h : min ≤ max) :
    min ≤ preRoundValue current min max volatility rand ∧
    preRoundValue current min max volatility rand ≤ max := by
  unfold preRoundValue
  rw [jsMax_eq_max, jsMin_eq_min]
  constructor
  · exact le_max_left _ _
  · exact max_le h (min_le_left _ _)

/-- Claim C1 (counterexample): with min = max = current = 0.06,
volatility 0 and precision 1, every hypothesis of the claim holds, yet
getNextValue returns 0.1, which is outside [min, max]: the rounding
step runs after the hard clamp and can leave the interval. -/
theorem C1_counterexample :
    getNextValue (6/100) (6/100) (6/100) 0 1 (1/2) = 1/10 ∧
    ¬ getNextValue (6/100) (6/100) (6/100) 0 1 (1/2) ≤ 6/100 := by
  constructor <;> norm_num [getNextValue, jsRound, jsMax, jsMin]

/-- Claim C1 (amended): the value entering the rounding step always
lies in [min, max]; the returned value stays in [min, max] provided
min and max are exactly representable at the chosen precision
(min·10^p and max·10^p integral), for every current, volatility and
noise draw. -/
theorem C1_amended (min max : ℚ) (p : ℕ) (a b : ℤ)
    (hab : min ≤ max) (ha : min = (a : ℚ) / 10 ^ p) (hb : max = (b : ℚ) / 10 ^ p)
    (current volatility rand : ℚ) :
    (min ≤ preRoundValue current min max volatility rand ∧
      preRoundValue current min max volatility rand ≤ max) ∧
    min ≤ getNextValue current min max volatility p rand ∧
    getNextValue current min max volatility p rand ≤ max := by
  have hf : (0 : ℚ) < 10 ^ p := by positivity
  obtain ⟨hlo, hhi⟩ := preRoundValue_mem current min max volatility rand hab
  refine ⟨⟨hlo, hhi⟩, ?_, ?_⟩
  · rw [getNextValue_eq_round_pre]
    set y := preRoundValue current min max volatility rand with hy
    have h1 : a ≤ jsRound (y * 10 ^ p) := by
      rw [jsRound, Int.le_floor]
      have : (a : ℚ) ≤ y * 10 ^ p := by
        have h2 : min * 10 ^ p ≤ y * 10 ^ p :=
          mul_le_mul_of_nonneg_right hlo (le_of_lt hf)
        have h3 : (a : ℚ) = min * 10 ^ p := by
          rw [ha]; field_simp
        linarith
      linarith
    rw [ha, roundToPrecision]
    have hc : (a : ℚ) ≤ (jsRound (y * 10 ^ p) : ℚ) := by exact_mod_cast h1
    exact div_le_div_of_nonneg_right hc hf.le |>.trans_eq rfl
  · rw [getNextValue_eq_round_pre]
    set y := preRoundValue current min max volatility rand with hy
    have h1 : jsRound (y * 10 ^ p) ≤ b := by
      rw [jsRound]
      have h2 : y * 10 ^ p ≤ (b : ℚ) := by
        have h3 : y * 10 ^ p ≤ max * 10 ^ p :=
          mul_le_mul_of_nonneg_right hhi (le_of_lt hf)
        have h4 : max * 10 ^ p = (b : ℚ) := by
          rw [hb]; field_simp
        linarith
      have h5 : (⌊y * 10 ^ p + 1/2⌋ : ℤ) ≤ ⌊(b : ℚ) + 1/2⌋ :=
        Int.floor_le_floor (by linarith)
      have h6 : (⌊(b : ℚ) + 1/2⌋ : ℤ) = b := by
        rw [add_comm, Int.floor_add_int]
        norm_num
      omega
    rw [hb, roundToPrecision]
    have hc : (jsRound (y * 10 ^ p) : ℚ) ≤ (b : ℚ) := by exact_mod_cast h1
    exact div_le_div_of_nonneg_right hc hf.le |>.trans_eq rfl

/-- Claim C1 witness: concrete instantiation of the amended theorem at
min 2, max 8, precision 1. -/
theorem C1_witness :
    (2 : ℚ) ≤ 8 ∧ (2 : ℚ) = ((20 : ℤ) : ℚ) / 10 ^ 1 ∧ (8 : ℚ) = ((80 : ℤ) : ℚ) / 10 ^ 1 ∧
    (2 ≤ getNextValue 9 2 8 3 1 (1/4) ∧ getNextValue 9 2 8 3 1 (1/4) ≤ 8) :=
  ⟨by norm_num, by norm_num, by norm_num,
    (C1_amended 2 8 1 20 80 (by norm_num) (by norm_num) (by norm_num) 9 3 (1/4)).2⟩

/-- Claim C2 (counterexample): at the reachable rounding input -0.05
with precision 1 (produced e.g. by current 0, range [-1,1], volatility
0.05, random draw 0), the code rounds to 0 while the claimed
round-half-away-from-zero formula gives -0.1. -/
theorem C2_counterexample :
    getNextValue 0 (-1) 1 (1/20) 1 0 = 0 ∧
    preRoundValue 0 (-1) 1 (1/20) 0 = -(1/20) ∧
    roundToPrecision (-(1/20)) 1 = 0 ∧
    specRoundHalfAwayFromZero (-(1/20)) 1 = -(1/10) ∧
    roundToPrecision (-(1/20)) 1 ≠ specRoundHalfAwayFromZero (-(1/20)) 1 := by
  refine ⟨?_, ?_, ?_, ?_, ?_⟩
  · norm_num [getNextValue, jsRound, jsMax, jsMin]
  · norm_num [preRoundValue, jsMax, jsMin]
  · norm_num [roundToPrecision, jsRound]
  · rw [specRoundHalfAwayFromZero, if_pos (by norm_num : (-(1/20) : ℚ) < 0),
      show |(-(1/20) : ℚ)| = 1/20 by
        rw [abs_neg, abs_of_nonneg (by norm_num : (0:ℚ) ≤ 1/20)]]
    norm_num
  · rw [show roundToPrecision (-(1/20)) 1 = 0 by norm_num [roundToPrecision, jsRound],
      show specRoundHalfAwayFromZero (-(1/20)) 1 = -(1/10) by
        rw [specRoundHalfAwayFromZero, if_pos (by norm_num : (-(1/20) : ℚ) < 0),
          show |(-(1/20) : ℚ)| = 1/20 by
            rw [abs_neg, abs_of_nonneg (by norm_num : (0:ℚ) ≤ 1/20)]]
        norm_num]
    norm_num

/-- Claim C2 (amended): the final step of getNextValue rounds the
clamped value to precision digits with Math.round semantics — ties
toward positive infinity, result ⌊x·10^p + 1/2⌋ / 10^p — which agrees
with the claimed round-half-away-from-zero formula exactly on
nonnegative inputs. -/
theorem C2_amended (x : ℚ) (p : ℕ) (current min max volatility rand : ℚ) :
    getNextValue current min max volatility p rand
      = roundToPrecision (preRoundValue current min max volatility rand) p ∧
    roundToPrecision x p = ((⌊x * 10 ^ p + 1/2⌋ : ℤ) : ℚ) / 10 ^ p ∧
    (0 ≤ x → roundToPrecision x p = specRoundHalfAwayFromZero x p) := by
  refine ⟨rfl, rfl, fun hx => ?_⟩
  rw [roundToPrecision, specRoundHalfAwayFromZero, if_neg (not_lt.mpr hx),
    abs_of_nonneg hx, jsRound]

/-- Claim C2 witness: the amended rounding agreement at x = 0.15. -/
theorem C2_witness :
    (0 : ℚ) ≤ 3/20 ∧ roundToPrecision (3/20) 1 = specRoundHalfAwayFromZero (3/20) 1 :=
  ⟨by norm_num, (C2_amended (3/20) 1 0 0 0 0 0).2.2 (by norm_num)⟩

/-- Claim C7: with zero volatility, starting at the center of the
range, getNextValue returns the center rounded to precision digits
(the code's rounding of center), for every min ≤ max, precision and
random draw: the center is a fixed point of the drift term. -/
theorem C7_center_fixed (min max : ℚ) (p : ℕ) (h : min ≤ max) (rand : ℚ) :
    getNextValue ((min + max) / 2) min max 0 p rand
      = ((jsRound ((min + max) / 2 * 10 ^ p) : ℤ) : ℚ) / 10 ^ p := by
  have hc1 : ¬ ((min + max) / 2 > max) := by push_neg; linarith
  have hc2 : ¬ ((min + max) / 2 < min) := by push_neg; linarith
  simp only [getNextValue, if_neg hc1, if_neg hc2]
  rw [show (min + max) / 2 + ((min + max) / 2 - (min + max) / 2) * 0.2 + (rand * 2 - 1) * 0
        = (min + max) / 2 by ring]
  rw [jsMin_eq_min, jsMax_eq_max, min_eq_right (by linarith), max_eq_right (by linarith)]

/-- Claim C7 witness: the fixed point at range [2, 8], precision 1. -/
theorem C7_witness :
    (2 : ℚ) ≤ 8 ∧
    getNextValue ((2 + 8) / 2) 2 8 0 1 (1/3)
      = ((jsRound ((2 + 8) / 2 * 10 ^ 1) : ℤ) : ℚ) / 10 ^ 1 :=
  ⟨by norm_num, C7_center_fixed 2 8 1 (by norm_num) (1/3)⟩

/-- Claim C3 (counterexample): a frame with flat speed 5 and typed
SET_SPEED value 6 extracts speed 6 — the typed shape, not the flat
field, wins. -/
theorem C3_counterexample :
    (extractUpdate typedSpeedMsg).speed = some 6 ∧
    (extractUpdate typedSpeedMsg).speed ≠ some 5 := by
  constructor <;>
    simp [extractUpdate, extractRawSpeed, extractRawIncline, typedSpeedMsg, emptyMsg,
      jsOr, parseNumber, msgTypeSpeed, msgTypeSetSpeed]

/-- Claim C3 (amended): the nested shape is tried before the flat
shape with first-match-wins, but the typed single-value shape is
applied last and unconditionally overrides both whenever the type
matches: a matching type makes msg.value the extracted raw value for
that field, and only a non-matching type lets the nested (then flat)
result stand. -/
theorem C3_amended (m : Msg) :
    ((m.type = some msgTypeSpeed ∨ m.type = some msgTypeSetSpeed) →
      (extractUpdate m).speed = parseNumber m.value) ∧
    ((m.type = some msgTypeIncline ∨ m.type = some msgTypeSetIncline) →
      (extractUpdate m).incline = parseNumber m.value) ∧
    (¬ (m.type = some msgTypeSpeed ∨ m.type = some msgTypeSetSpeed) →
      ∀ d v, m.data = some d → d.speed_kmh = some v →
        (extractUpdate m).speed = parseNumber (some v)) := by
  refine ⟨fun h => ?_, fun h => ?_, fun h d v hd hv => ?_⟩
  · have : extractRawSpeed m = m.value := by
      simp only [extractRawSpeed, if_pos h]
    simp [extractUpdate, this]
  · have : extractRawIncline m = m.value := by
      simp only [extractRawIncline, if_pos h]
    simp [extractUpdate, this]
  · have : extractRawSpeed m = some v := by
      simp only [extractRawSpeed, hd, hv, jsOr, if_neg h]
    simp [extractUpdate, this]

/-- Claim C3 witness: the typed-override clause applied to the frame
with flat speed 5 and typed SET_SPEED value 6. -/
theorem C3_witness :
    (typedSpeedMsg.type = some msgTypeSpeed ∨ typedSpeedMsg.type = some msgTypeSetSpeed) ∧
    (extractUpdate typedSpeedMsg).speed = parseNumber typedSpeedMsg.value :=
  ⟨Or.inr rfl, (C3_amended typedSpeedMsg).1 (Or.inr rfl)⟩

/-- Claim C8 (counterexample): starting from the initial telemetry
state, one inbound frame carrying flat speed -3 leaves the stored
speed negative — nothing enforces the claimed speed ≥ 0 invariant. -/
theorem C8_counterexample :
    (processFrames (initialTreadmillState 0) [(5, negSpeedMsg)]).speedKmh = -3 ∧
    ¬ (0 ≤ (processFrames (initialTreadmillState 0) [(5, negSpeedMsg)]).speedKmh) := by
  have hval : (processFrames (initialTreadmillState 0) [(5, negSpeedMsg)]).speedKmh = -3 := by
    simp [processFrames, onMessageUpdate, extractUpdate, extractRawSpeed,
      extractRawIncline, negSpeedMsg, emptyMsg, jsOr, parseNumber, msgTypeSpeed,
      msgTypeSetSpeed, msgTypeIncline, msgTypeSetIncline, initialTreadmillState]
  exact ⟨hval, by rw [hval]; norm_num⟩

/-- Claim C8 (amended): the stored speed stays nonnegative exactly as
long as the inbound frames do not carry a negative extracted speed:
from any state with nonnegative speed, processing any sequence of
frames whose extracted speed values are all nonnegative keeps the
stored speed nonnegative. -/
theorem C8_amended (st : TreadmillState) (frames : List (ℕ × Msg))
    (h0 : 0 ≤ st.speedKmh)
    (h : ∀ f ∈ frames, ∀ q, (extractUpdate f.2).speed = some q → 0 ≤ q) :
    0 ≤ (processFrames st frames).speedKmh := by
  induction frames generalizing st with
  | nil => simpa [processFrames] using h0
  | cons f rest ih =>
    have hstep : 0 ≤ (onMessageUpdate st f.1 f.2).speedKmh := by
      rw [onMessageUpdate]
      split
      · cases hs : (extractUpdate f.2).speed with
        | none => simpa [hs] using h0
        | some q =>
          have := h f (List.mem_cons_self f rest) q hs
          simpa [hs] using this
      · exact h0
    have hfold : processFrames st (f :: rest) = processFrames (onMessageUpdate st f.1 f.2) rest := by
      simp [processFrames]
    rw [hfold]
    exact ih _ hstep (fun g hg q hq => h g (List.mem_cons_of_mem _ hg) q hq)

/-- Claim C8 witness: a frame with nonnegative extracted speed keeps
the invariant. -/
theorem C8_witness :
    0 ≤ (initialTreadmillState 0).speedKmh ∧
    0 ≤ (processFrames (initialTreadmillState 0) [(3, posSpeedMsg)]).speedKmh := by
  have hpos : (extractUpdate posSpeedMsg).speed = some 5 := by
    simp [extractUpdate, extractRawSpeed, extractRawIncline, posSpeedMsg, emptyMsg,
      jsOr, parseNumber, msgTypeSpeed, msgTypeSetSpeed, msgTypeIncline, msgTypeSetIncline]
  refine ⟨by norm_num [initialTreadmillState], ?_⟩
  refine C8_amended _ _ (by norm_num [initialTreadmillState]) ?_
  intro f hf q hq
  have hfe : f = (3, posSpeedMsg) := by simpa using hf
  subst hfe
  rw [hpos] at hq
  have : q = 5 := by injection hq with h; exact h.symm
  subst this
  norm_num

/-- Claim C9: processing one parsed frame is a partial update with a
frame condition — a speed-only extraction overwrites speed, keeps the
stored incline, refreshes the timestamp and sets the linked flag; an
incline-only extraction is symmetric; a frame from which nothing is
extracted leaves the state entirely unchanged. -/
theorem C9_frame_effect (st : TreadmillState) (now : ℕ) (m : Msg) :
    (∀ q, (extractUpdate m).speed = some q → (extractUpdate m).incline = none →
      onMessageUpdate st now m =
        { speedKmh := q, inclinePct := st.inclinePct, timestamp := now, isConnected := true }) ∧
    (∀ q, (extractUpdate m).incline = some q → (extractUpdate m).speed = none →
      onMessageUpdate st now m =
        { speedKmh := st.speedKmh, inclinePct := q, timestamp := now, isConnected := true }) ∧
    ((extractUpdate m).speed = none → (extractUpdate m).incline = none →
      onMessageUpdate st now m = st) := by
  refine ⟨fun q hq hn => ?_, fun q hq hn => ?_, fun h1 h2 => ?_⟩
  · simp [onMessageUpdate, hq, hn]
  · simp [onMessageUpdate, hq, hn]
  · simp [onMessageUpdate, h1, h2]

/-- Claim C9 witness: the speed-only clause applied to the frame with
flat speed 5 at time 9. -/
theorem C9_witness :
    (extractUpdate posSpeedMsg).speed = some 5 ∧
    (extractUpdate posSpeedMsg).incline = none ∧
    onMessageUpdate (initialTreadmillState 0) 9 posSpeedMsg =
      { speedKmh := 5, inclinePct := (initialTreadmillState 0).inclinePct,
        timestamp := 9, isConnected := true } := by
  have h1 : (extractUpdate posSpeedMsg).speed = some 5 := by
    simp [extractUpdate, extractRawSpeed, extractRawIncline, posSpeedMsg, emptyMsg,
      jsOr, parseNumber, msgTypeSpeed, msgTypeSetSpeed, msgTypeIncline, msgTypeSetIncline]
  have h2 : (extractUpdate posSpeedMsg).incline = none := by
    simp [extractUpdate, extractRawSpeed, extractRawIncline, posSpeedMsg, emptyMsg,
      jsOr, parseNumber, msgTypeSpeed, msgTypeSetSpeed, msgTypeIncline, msgTypeSetIncline]
  exact ⟨h1, h2, (C9_frame_effect (initialTreadmillState 0) 9 posSpeedMsg).1 5 h1 h2⟩

/-- Claim C10: the log buffer is bounded by 200 entries with the
newest entry first; a log at the bound keeps the newest 199 previous
entries and discards the oldest. -/
theorem C10_log_bounded (logs : List LogEntry) (now : ℕ) (msg : String) (k : LogKind) :
    (addLog logs now msg k).length ≤ 200 ∧
    (addLog logs now msg k).head? = some { timestamp := now, message := msg, type := k } ∧
    (logs.length ≤ 199 → addLog logs now msg k =
      { timestamp := now, message := msg, type := k } :: logs) ∧
    addLog logs now msg k =
      { timestamp := now, message := msg, type := k } :: logs.take 199 := by
  have hsucc : (200 : ℕ) = 199 + 1 := rfl
  refine ⟨List.length_take_le _ _, ?_, fun hlen => ?_, ?_⟩
  · rw [addLog, hsucc, List.take_succ_cons]
    rfl
  · rw [addLog, hsucc, List.take_succ_cons, List.take_of_length_le hlen]
  · rw [addLog, hsucc, List.take_succ_cons]

/-- Claim C10 witness: logging onto a short buffer keeps every
previous entry. -/
theorem C10_witness :
    ([] : List LogEntry).length ≤ 199 ∧
    addLog [] 7 demoUrl LogKind.info =
      [{ timestamp := 7, message := demoUrl, type := LogKind.info }] :=
  ⟨by norm_num, (C10_log_bounded [] 7 demoUrl LogKind.info).2.2.1 (by norm_num)⟩

/-- Claim C4 (counterexample): a send on a closed transport transmits
nothing and also logs nothing — sendCommand has no else branch, so the
claimed log entry for a suppressed send is never produced. -/
theorem C4_counterexample :
    (sendCommand (some closedSocket) cmdSetSpeedNow (some 5)).transmitted = [] ∧
    (sendCommand (some closedSocket) cmdSetSpeedNow (some 5)).logged = [] := by
  constructor <;> simp [sendCommand, closedSocket, WS_STATE_CLOSED, WS_STATE_OPEN]

/-- Claim C4 (amended): a send issued while the transport is not open
produces no transmission and no log entry; the command is silently
discarded, not queued or retried. -/
theorem C4_amended (sock : Option WSocket) (type : String) (value : Option ℚ)
    (h : ∀ ws, sock = some ws → ws.readyState ≠ WS_STATE_OPEN) :
    (sendCommand sock type value).transmitted = [] ∧
    (sendCommand sock type value).logged = [] := by
  cases sock with
  | none => exact ⟨rfl, rfl⟩
  | some ws => simp [sendCommand, h ws rfl]

/-- Claim C4 witness: a send on a transport in the CLOSING state. -/
theorem C4_witness :
    (sendCommand (some closingSocket) cmdSetSpeedNow (some 5)).transmitted = [] ∧
    (sendCommand (some closingSocket) cmdSetSpeedNow (some 5)).logged = [] :=
  C4_amended _ _ _ (by
    intro ws hws
    injection hws with h2
    subst h2
    simp [closingSocket, WS_STATE_CLOSING, WS_STATE_OPEN])

/-- Claim C5 (counterexample): two close notifications for the same
current socket schedule two pending reconnect timers, not at most
one — ws.onclose does not deduplicate scheduling. -/
theorem C5_counterexample :
    ((closeEvt (closeEvt demoLinkState 0) 0).pending.length = 2) ∧
    ¬ ((closeEvt (closeEvt demoLinkState 0) 0).pending.length ≤ 1) := by
  constructor <;> decide

/-- Claim C5 (amended): one close notification while current schedules
exactly one reconnect timer and a duplicate notification schedules a
second one; still, firing both pending timers re-opens exactly one
link (the first firing supersedes the captured socket, so the second
timer's identity guard fails), and after teardown no pending timer
re-opens a link at all. -/
theorem C5_amended (s : LinkState) (sid : ℕ)
    (h1 : s.current = some sid) (h2 : sid < s.nextId) (h3 : s.pending = []) :
    ((closeEvt s sid).pending.length = 1) ∧
    ((closeEvt (closeEvt s sid) sid).pending.length = 2) ∧
    ((reconnectTimerFire (reconnectTimerFire (closeEvt (closeEvt s sid) sid) sid) sid).connects
        = s.connects + 1) ∧
    (∀ j, (reconnectTimerFire (teardown (closeEvt (closeEvt s sid) sid)) j).connects
        = s.connects) := by
  have e1 : closeEvt s sid =
      { current := some sid, nextId := s.nextId,
        openIds := s.openIds.filter (fun j => j != sid), pending := [sid],
        connects := s.connects } := by
    simp [closeEvt, h1, h3]
  have e2 : closeEvt (closeEvt s sid) sid =
      { current := some sid, nextId := s.nextId,
        openIds := (s.openIds.filter (fun j => j != sid)).filter (fun j => j != sid),
        pending := [sid, sid], connects := s.connects } := by
    rw [e1]; simp [closeEvt]
  have hnotmem : sid ∉ (s.openIds.filter (fun j => j != sid)).filter (fun j => j != sid) := by
    simp [List.mem_filter]
  have hne : s.nextId ≠ sid := by omega
  have e3 : reconnectTimerFire (closeEvt (closeEvt s sid) sid) sid =
      { current := some s.nextId, nextId := s.nextId + 1,
        openIds := ((s.openIds.filter (fun j => j != sid)).filter
          (fun j => j != sid)).filter (fun j => j != sid),
        pending := [sid], connects := s.connects + 1 } := by
    rw [e2]
    simp [reconnectTimerFire, connectWebSocket, hnotmem, List.erase_cons_head]
  have e4 : reconnectTimerFire (reconnectTimerFire (closeEvt (closeEvt s sid) sid) sid) sid =
      { current := some s.nextId, nextId := s.nextId + 1,
        openIds := ((s.openIds.filter (fun j => j != sid)).filter
          (fun j => j != sid)).filter (fun j => j != sid),
        pending := [], connects := s.connects + 1 } := by
    rw [e3]
    simp [reconnectTimerFire, List.erase_cons_head, hne]
  refine ⟨by simp [e1], by simp [e2], by simp [e4], fun j => ?_⟩
  have e5 : teardown (closeEvt (closeEvt s sid) sid) =
      { current := none, nextId := s.nextId,
        openIds := (s.openIds.filter (fun j => j != sid)).filter (fun j => j != sid),
        pending := [sid, sid], connects := s.connects } := by
    rw [e2]; simp [teardown]
  rw [e5, reconnectTimerFire]
  split
  · simp
  · rfl

/-- Claim C5 witness: concrete run with socket 0 current and open. -/
theorem C5_witness :
    ((closeEvt demoLinkState 0).pending.length = 1) ∧
    ((reconnectTimerFire (reconnectTimerFire (closeEvt (closeEvt demoLinkState 0) 0) 0)
        0).connects = demoLinkState.connects + 1) ∧
    ((reconnectTimerFire (teardown (closeEvt (closeEvt demoLinkState 0) 0)) 7).connects
        = demoLinkState.connects) := by
  have h := C5_amended demoLinkState 0 rfl (by decide) rfl
  exact ⟨h.1, h.2.2.1, h.2.2.2 7⟩

theorem jsParseFloat_half : jsParseFloat inputHalfSecond = some (1/2) := by
  have hs : inputHalfSecond.toList = ['0', '.', '5'] := rfl
  have h0 : '0'.isDigit = true := rfl
  have hdot : '.'.isDigit = false := rfl
  have h5 : '5'.isDigit = true := rfl
  have e1 : ('0' == '-') = false := rfl
  have e2 : ('0' == '+') = false := rfl
  have e3 : ('.' == '.') = true := rfl
  have t0 : '0'.toNat = 48 := rfl
  have t5 : '5'.toNat = 53 := rfl
  simp only [jsParseFloat, hs, startsWithChar, List.takeWhile, List.dropWhile,
    h0, hdot, h5, e1, e2, e3, t0, t5, Bool.false_or, if_false, if_true,
    List.tail_cons, digitsToNat, List.foldl, List.isEmpty, List.length]
  norm_num

/-- Claim C6 (counterexample): typing 0.5 into the speed Interval (s)
input stores updateInterval = 500 ms — below the claimed 1000 ms
bound; the boundary neither rejects nor clamps sub-second intervals. -/
theorem C6_counterexample :
    (intervalInputOnChange defaultScenarioConfig ConfigSection.speed
        inputHalfSecond).speed.updateInterval = 500 ∧
    ¬ (1000 ≤ (intervalInputOnChange defaultScenarioConfig ConfigSection.speed
        inputHalfSecond).speed.updateInterval) := by
  have h : (intervalInputOnChange defaultScenarioConfig ConfigSection.speed
      inputHalfSecond).speed.updateInterval = 500 := by
    rw [intervalInputOnChange, jsParseFloat_half]
    norm_num [handleChangeNum, applySection, setRangeField, defaultScenarioConfig]
  exact ⟨h, by rw [h]; norm_num⟩

/-- Claim C6 (amended): the interval boundary rejects only non-numeric
input (the configuration is then left unchanged); any parsed number v
is stored as updateInterval = v * 1000 with no lower bound, so
sub-second values reach the scenario loops unclamped. -/
theorem C6_amended (cfg : ScenarioConfig) (sec : ConfigSection) (text : String) :
    (jsParseFloat text = none → intervalInputOnChange cfg sec text = cfg) ∧
    (∀ v, jsParseFloat text = some v →
      (sectionOf (intervalInputOnChange cfg sec text) sec).updateInterval = v * 1000) := by
  constructor
  · intro h
    simp [intervalInputOnChange, h]
  · intro v h
    cases sec <;>
      simp [intervalInputOnChange, h, handleChangeNum, applySection, setRangeField, sectionOf]

/-- Claim C6 witness: the amended storage rule at input 0.5 s. -/
theorem C6_witness :
    jsParseFloat inputHalfSecond = some (1/2) ∧
    (sectionOf (intervalInputOnChange defaultScenarioConfig ConfigSection.speed
        inputHalfSecond) ConfigSection.speed).updateInterval = (1/2) * 1000 :=
  ⟨jsParseFloat_half,
    (C6_amended defaultScenarioConfig ConfigSection.speed inputHalfSecond).2
      (1/2) jsParseFloat_half⟩
